import Mathlib

/-!
Verification of the nanomdm `certauth` middleware (package certauth) and the
`microwebhook` event poster, shallowly embedded from the Go source.

The embedding models:
* the certificate-association state machine of `certauth`
  (`associateNewEnrollment`, `validateAssociateExistingEnrollment`, the four
  per-message dispatch methods, `normalize`, `hashCert`);
* the webhook poster `postWebhookEvent`.

External collaborators that are not part of this repository's source
(the `CertAuthStore` backends, `crypto/sha256`, `mdm.Enrollment.Resolved`,
`mdm.EnrollID.Validate`, `encoding/json`, `net/http`) are modelled from the
spec's contracts; each such definition carries a doc comment saying so.

Store interactions are made observable: every protocol function returns an
`Outcome` holding the Go function's `error` result, the store state after the
call, and the ordered list of store operations it invoked, so that frame
properties ("no bind happened") are provable.
-/

namespace certauth

/-- Modelled from the spec: the enrollment-type tag of an `mdm.EnrollID`
("e.g. device channel, user channel"); the `mdm` package is not part of this
repository's certauth source. -/
inductive EnrollType where
  | device
  | user
deriving DecidableEq, Repr

/-- `mdm.EnrollID`: an opaque identifier string plus an enrollment-type tag.
Two EnrollIDs are equal iff both fields match (structure equality). -/
structure EnrollID where
  id : String
  type : EnrollType
deriving DecidableEq, Repr

/-- Modelled from the spec: an `mdm.Enrollment` record, which may represent a
device channel or a subordinate user channel of a physical device, or be
unresolvable; the `mdm` package is not in the provided source. -/
inductive Enrollment where
  | deviceChannel (deviceID : String)
  | userChannel (deviceID : String) (userID : String)
  | unresolvable
deriving DecidableEq, Repr

/-- Modelled from the spec: the result of `mdm.Enrollment.Resolved()`, carrying
the parent device-channel identifier of the MDM relationship and the resolved
type; resolution of an unresolvable record yields nothing (`nil`). The spec's
normalizer contract says both channels resolve to the parent "device channel"
identity. -/
structure ResolvedEnrollment where
  type : EnrollType
  deviceChannelID : String
deriving DecidableEq, Repr

/-- Modelled from the spec: `Enrollment.Resolved()`.  A device-channel or
user-channel enrollment resolves to the parent device-channel identity of the
physical device; an unresolvable record resolves to nothing. -/
def Enrollment.resolved : Enrollment → Option ResolvedEnrollment
  | .deviceChannel d => some ⟨.device, d⟩
  | .userChannel d _ => some ⟨.device, d⟩
  | .unresolvable => none

/-- `normalize` from the source: pulls out only the "device" ID (the "parent"
of the MDM relationship) regardless of enrollment type; `nil` when the record
does not resolve. -/
def normalize (e : Enrollment) : Option EnrollID :=
  match e.resolved with
  | none => none
  | some r => some { id := r.deviceChannelID, type := r.type }

/-- A certificate is compared only through its raw encoded bytes
(`x509.Certificate.Raw`); each byte is a `Nat` below 256. -/
structure Certificate where
  raw : List Nat
deriving DecidableEq, Repr

/-- The lowercase hex digit character for a value below 16, as produced by
`encoding/hex`: digits take code points 48-57, letters a-f take 97-102. -/
def hexDigit (d : Nat) : Char :=
  if d < 10 then Char.ofNat (48 + d) else Char.ofNat (87 + d)

/-- Fixed-width lowercase hex rendering of a natural number
(most significant digit first). -/
def toHexFixed : Nat → Nat → String
  | 0, _ => ""
  | w + 1, v => toHexFixed w (v / 16) ++ String.mk [hexDigit (v % 16)]

/-- Modelled from the spec: the external cryptographic digest (`crypto/sha256`
is the Go standard library, not repository code).  The spec requires only a
deterministic 256-bit digest of the raw certificate bytes; this stand-in folds
the bytes into a number below `2 ^ 256`. -/
def digest256 (raw : List Nat) : Nat :=
  raw.foldl (fun a b => (a * 257 + b % 256 + 1) % 2 ^ 256) 0

/-- `hashCert` from the source: digest of the certificate's raw bytes rendered
as a fixed-width (64 character) lowercase hex string. -/
def hashCert (cert : Certificate) : String :=
  toHexFixed 64 (digest256 cert.raw)

/-- The protocol-relevant fields of an `mdm.Request`: the attached client
certificate (possibly absent) and the enroll ID (possibly `nil`). -/
structure Request where
  certificate : Option Certificate
  enrollID : Option EnrollID
deriving DecidableEq, Repr

/-- `mdm.Request.Clone()`: a copy of the request; the original is untouched by
later field assignments on the clone. -/
def Request.clone (r : Request) : Request :=
  { certificate := r.certificate, enrollID := r.enrollID }

/-- The error results the certauth protocol functions can produce:
`ErrMissingCert`, the EnrollID validator's error surfaced unchanged,
`ErrNoCertReuse`, `ErrNoCertAssoc`, and errors propagated from the store
(tagged with the store operation that produced them). -/
inductive StoreOp where
  | hasCertHash
  | isCertHashAssociated
  | enrollmentHasCertHash
  | associateCertHash
deriving DecidableEq, Repr

inductive Err where
  | missingCert
  | invalidID (msg : String)
  | noCertReuse
  | noCertAssoc
  | store (op : StoreOp)
deriving DecidableEq, Repr

deriving instance DecidableEq for Except

/-- Modelled from the spec: `mdm.EnrollID.Validate()` (the `mdm` package is not
in the provided source): structural validation requiring a non-nil EnrollID
with a non-empty identifier and a recognized type (every `EnrollType`
constructor is recognized).  Returns the validated id on success so the
protocol functions can use it. -/
def validateEnrollID : Option EnrollID → Except Err EnrollID
  | none => .error (.invalidID "nil enroll id")
  | some eid =>
      if eid.id = "" then .error (.invalidID "empty enrollment id") else .ok eid

/-- The association store state, modelled from the spec's store contract
(the storage backends are external to this source): a list of bound
(EnrollID, CertHash) pairs, plus per-operation error-injection flags standing
for the store's possible failures. -/
structure StoreModel where
  assocs : List (EnrollID × String)
  failHasCertHash : Bool := false
  failIsAssoc : Bool := false
  failEnrollmentHas : Bool := false
  failAssociate : Bool := false
deriving DecidableEq, Repr

/-- Modelled from the spec: `HasCertHash(hash)` — true if any enrollment
anywhere owns this hash. -/
def StoreModel.hasCertHashQ (st : StoreModel) (hash : String) : Bool :=
  st.assocs.any fun p => decide (p.2 = hash)

/-- Modelled from the spec: `IsCertHashAssociated(r, hash)` — true if this
exact (EnrollID, hash) pair is already bound. -/
def StoreModel.isCertHashAssociatedQ (st : StoreModel) (eid : EnrollID) (hash : String) : Bool :=
  st.assocs.any fun p => decide (p.1 = eid ∧ p.2 = hash)

/-- Modelled from the spec: `EnrollmentHasCertHash(r, hash)` — true if this
EnrollID owns some bound hash (the hash argument is passed by the caller but
the contract is about the EnrollID owning any hash). -/
def StoreModel.enrollmentHasCertHashQ (st : StoreModel) (eid : EnrollID) (_hash : String) : Bool :=
  st.assocs.any fun p => decide (p.1 = eid)

/-- Modelled from the spec: `AssociateCertHash(r, hash)` — idempotent bind;
an EnrollID has at most one actively bound CertHash, so binding replaces any
previous binding of the same EnrollID. -/
def StoreModel.associateQ (st : StoreModel) (eid : EnrollID) (hash : String) : StoreModel :=
  { st with assocs := (eid, hash) :: st.assocs.filter fun p => decide (p.1 ≠ eid) }

/-- The observable outcome of one protocol-function call: the Go `error`
result, the store state afterwards, and the ordered list of store operations
invoked during the call. -/
structure Outcome where
  result : Except Err Unit
  store : StoreModel
  ops : List StoreOp
deriving DecidableEq, Repr

/-- The policy flags of the `CertAuth` middleware struct. -/
structure CertAuth where
  allowDup : Bool
  allowRetroactive : Bool
  warnOnly : Bool
deriving DecidableEq, Repr

/-- The trailing `AssociateCertHash` step shared by all binding paths of
`associateNewEnrollment`: a store-level failure propagates unchanged,
otherwise the pair is bound. -/
def assocFinish (st : StoreModel) (eid : EnrollID) (hash : String) (ops : List StoreOp) : Outcome :=
  if st.failAssociate then
    ⟨.error (.store .associateCertHash), st, ops ++ [.associateCertHash]⟩
  else
    ⟨.ok (), st.associateQ eid hash, ops ++ [.associateCertHash]⟩

/-- `CertAuth.associateNewEnrollment` from the source, for the Authenticate
check-in message.  Mirrors the Go control flow: missing certificate, EnrollID
validation, `HasCertHash`, the `allowDup` gate, `IsCertHashAssociated`
idempotent re-authentication, the warn-only gate, and the final
`AssociateCertHash` bind.  Logging has no protocol effect and is omitted. -/
def associateNewEnrollment (s : CertAuth) (st : StoreModel) (r : Request) : Outcome :=
  match r.certificate with
  | none => ⟨.error .missingCert, st, []⟩
  | some cert =>
    match validateEnrollID r.enrollID with
    | .error e => ⟨.error e, st, []⟩
    | .ok eid =>
      let hash := hashCert cert
      if st.failHasCertHash then
        ⟨.error (.store .hasCertHash), st, [.hasCertHash]⟩
      else if st.hasCertHashQ hash && !s.allowDup then
        if st.failIsAssoc then
          ⟨.error (.store .isCertHashAssociated), st, [.hasCertHash, .isCertHashAssociated]⟩
        else if st.isCertHashAssociatedQ eid hash then
          ⟨.ok (), st, [.hasCertHash, .isCertHashAssociated]⟩
        else if !s.warnOnly then
          ⟨.error .noCertReuse, st, [.hasCertHash, .isCertHashAssociated]⟩
        else
          assocFinish st eid hash [.hasCertHash, .isCertHashAssociated]
      else
        assocFinish st eid hash [.hasCertHash]

/-- `CertAuth.validateAssociateExistingEnrollment` from the source, for
TokenUpdate, CheckOut and CommandAndReportResults.  Mirrors the Go control
flow: missing certificate, EnrollID validation, `IsCertHashAssociated`
steady-state success, the `allowRetroactive` gate, `EnrollmentHasCertHash`
(cert-swap check), `HasCertHash` (system-wide reuse check), the warn-only
no-mutation early success, and the final retroactive `AssociateCertHash`
bind.  Each violation gate falls through when `warnOnly` is set, exactly as
the Go `if !s.warnOnly { return ... }` does. -/
def validateAssociateExistingEnrollment (s : CertAuth) (st : StoreModel) (r : Request) : Outcome :=
  match r.certificate with
  | none => ⟨.error .missingCert, st, []⟩
  | some cert =>
    match validateEnrollID r.enrollID with
    | .error e => ⟨.error e, st, []⟩
    | .ok eid =>
      let hash := hashCert cert
      if st.failIsAssoc then
        ⟨.error (.store .isCertHashAssociated), st, [.isCertHashAssociated]⟩
      else if st.isCertHashAssociatedQ eid hash then
        ⟨.ok (), st, [.isCertHashAssociated]⟩
      else if !s.allowRetroactive && !s.warnOnly then
        ⟨.error .noCertAssoc, st, [.isCertHashAssociated]⟩
      else if st.failEnrollmentHas then
        ⟨.error (.store .enrollmentHasCertHash), st,
          [.isCertHashAssociated, .enrollmentHasCertHash]⟩
      else if st.enrollmentHasCertHashQ eid hash && !s.warnOnly then
        ⟨.error .noCertReuse, st, [.isCertHashAssociated, .enrollmentHasCertHash]⟩
      else if st.failHasCertHash then
        ⟨.error (.store .hasCertHash), st,
          [.isCertHashAssociated, .enrollmentHasCertHash, .hasCertHash]⟩
      else if st.hasCertHashQ hash && !s.warnOnly then
        ⟨.error .noCertReuse, st,
          [.isCertHashAssociated, .enrollmentHasCertHash, .hasCertHash]⟩
      else if s.warnOnly then
        ⟨.ok (), st, [.isCertHashAssociated, .enrollmentHasCertHash, .hasCertHash]⟩
      else if st.failAssociate then
        ⟨.error (.store .associateCertHash), st,
          [.isCertHashAssociated, .enrollmentHasCertHash, .hasCertHash, .associateCertHash]⟩
      else
        ⟨.ok (), st.associateQ eid hash,
          [.isCertHashAssociated, .enrollmentHasCertHash, .hasCertHash, .associateCertHash]⟩

/-- `mdm.Authenticate` check-in message: only its embedded enrollment is
read by the middleware. -/
structure AuthenticateMsg where
  enrollment : Enrollment
deriving DecidableEq, Repr

/-- `mdm.TokenUpdate` check-in message. -/
structure TokenUpdateMsg where
  enrollment : Enrollment
deriving DecidableEq, Repr

/-- `mdm.CheckOut` check-in message. -/
structure CheckOutMsg where
  enrollment : Enrollment
deriving DecidableEq, Repr

/-- `mdm.CommandResults` report message. -/
structure CommandResultsMsg where
  enrollment : Enrollment
deriving DecidableEq, Repr

/-- A `fmt.Errorf("<context>: %w", err)` wrapping: the context string plus the
wrapped underlying error. -/
structure WrappedErr where
  context : String
  underlying : Err
deriving DecidableEq, Repr

/-- What a dispatch method does after running the protocol: either invoke the
next service with a request and a message (recording exactly the arguments
passed downstream) or stop the chain with a wrapped error. -/
inductive DispatchResult (M : Type) where
  | next (r : Request) (m : M) (st : StoreModel)
  | fail (e : WrappedErr) (st : StoreModel)
deriving DecidableEq, Repr

/-- `CertAuth.Authenticate` from the source: clone the request, replace the
clone's EnrollID with the normalized identity from the message's enrollment,
run the new-enrollment protocol on the clone, and on success call
`next.Authenticate` with the original `r` and `m`.  (`NewCertAuthMiddleware`
fixes the normalizer field to `normalize`.) -/
def CertAuth.Authenticate (s : CertAuth) (st : StoreModel) (r : Request)
    (m : AuthenticateMsg) : DispatchResult AuthenticateMsg :=
  let req := { r.clone with enrollID := normalize m.enrollment }
  let out := associateNewEnrollment s st req
  match out.result with
  | .error e => .fail ⟨"cert auth: new enrollment", e⟩ out.store
  | .ok _ => .next r m out.store

/-- `CertAuth.TokenUpdate` from the source. -/
def CertAuth.TokenUpdate (s : CertAuth) (st : StoreModel) (r : Request)
    (m : TokenUpdateMsg) : DispatchResult TokenUpdateMsg :=
  let req := { r.clone with enrollID := normalize m.enrollment }
  let out := validateAssociateExistingEnrollment s st req
  match out.result with
  | .error e => .fail ⟨"cert auth: existing enrollment", e⟩ out.store
  | .ok _ => .next r m out.store

/-- `CertAuth.CheckOut` from the source. -/
def CertAuth.CheckOut (s : CertAuth) (st : StoreModel) (r : Request)
    (m : CheckOutMsg) : DispatchResult CheckOutMsg :=
  let req := { r.clone with enrollID := normalize m.enrollment }
  let out := validateAssociateExistingEnrollment s st req
  match out.result with
  | .error e => .fail ⟨"cert auth: existing enrollment", e⟩ out.store
  | .ok _ => .next r m out.store

/-- `CertAuth.CommandAndReportResults` from the source (its `*mdm.Command`
success value is produced by the next service, outside this middleware). -/
def CertAuth.CommandAndReportResults (s : CertAuth) (st : StoreModel) (r : Request)
    (m : CommandResultsMsg) : DispatchResult CommandResultsMsg :=
  let req := { r.clone with enrollID := normalize m.enrollment }
  let out := validateAssociateExistingEnrollment s st req
  match out.result with
  | .error e => .fail ⟨"cert auth: existing enrollment", e⟩ out.store
  | .ok _ => .next r m out.store

/-! Concrete sample data used by witnesses and counterexamples. -/

/-- A sample certificate with raw bytes `[1]`. -/
def certOne : Certificate := ⟨[1]⟩

/-- A sample certificate with raw bytes `[2]`; its hash differs from
`certOne`'s. -/
def certTwo : Certificate := ⟨[2]⟩

/-- A sample device-channel EnrollID "A". -/
def enrollA : EnrollID := ⟨"A", .device⟩

/-- A sample device-channel EnrollID "B". -/
def enrollB : EnrollID := ⟨"B", .device⟩

end certauth

namespace microwebhook

/-- The error results of `postWebhookEvent`: a `json.MarshalIndent` failure,
an `http.NewRequestWithContext` failure, a failure of the HTTP round trip
(`client.Do`), or the formatted non-200 status error. -/
inductive PostErr where
  | marshal
  | newRequest
  | doFail
  | status (code : Nat)
deriving DecidableEq, Repr

/-- The part of an `http.Response` the poster inspects. -/
structure HttpResponse where
  statusCode : Nat
deriving DecidableEq, Repr

/-- Modelled from the spec: the outcomes of the external collaborators used by
`postWebhookEvent` (`encoding/json`, `net/http` are the Go standard library):
whether JSON serialization succeeds, whether request construction succeeds,
and the round-trip result (`none` standing for a transport error from
`client.Do`, `some resp` for a received response). -/
structure WebhookEnv where
  marshalOk : Bool
  newRequestOk : Bool
  doResult : Option HttpResponse
deriving DecidableEq, Repr

/-- `postWebhookEvent` from the source: marshal the event, build the POST
request (the Content-Type header it sets does not affect the result), run the
round trip, and fail on any response status other than exactly 200.  Returns
`none` for Go's `nil` error. -/
def postWebhookEvent (env : WebhookEnv) : Option PostErr :=
  if !env.marshalOk then some .marshal
  else if !env.newRequestOk then some .newRequest
  else
    match env.doResult with
    | none => some .doFail
    | some resp =>
      if resp.statusCode ≠ 200 then some (.status resp.statusCode) else none

end microwebhook

/-! Theorems settling the claims. -/

namespace certauth

/-- C1: with the duplicate-hashes policy disabled and warn-only disabled, an
Authenticate (new-enrollment protocol) whose certificate hash is already known
to the store but not associated with the calling normalized EnrollID fails
with `ErrNoCertReuse` (CertificateReuseDenied) and performs no bind; with the
duplicate-hashes policy enabled the same call succeeds and binds the
(EnrollID, hash) pair even though the hash is already bound elsewhere. -/
theorem C1_new_enrollment_duplicate_policy
    (ar w : Bool) (st : StoreModel) (r : Request) (cert : Certificate) (eid : EnrollID)
    (hcert : r.certificate = some cert)
    (hval : validateEnrollID r.enrollID = .ok eid)
    (hf1 : st.failHasCertHash = false) (hf2 : st.failIsAssoc = false)
    (hf4 : st.failAssociate = false)
    (hknown : st.hasCertHashQ (hashCert cert) = true)
    (hnotmine : st.isCertHashAssociatedQ eid (hashCert cert) = false) :
    associateNewEnrollment ⟨false, ar, false⟩ st r =
      ⟨.error .noCertReuse, st, [.hasCertHash, .isCertHashAssociated]⟩ ∧
    associateNewEnrollment ⟨true, ar, w⟩ st r =
      ⟨.ok (), st.associateQ eid (hashCert cert), [.hasCertHash, .associateCertHash]⟩ ∧
    (eid, hashCert cert) ∈ (st.associateQ eid (hashCert cert)).assocs := by
  refine ⟨?_, ?_, ?_⟩
  · simp [associateNewEnrollment, hcert, hval, hf1, hf2, hf4, hknown, hnotmine, assocFinish]
  · simp [associateNewEnrollment, hcert, hval, hf1, hf2, hf4, hknown, hnotmine, assocFinish]
  · simp [StoreModel.associateQ]

/-- C1 witness: a concrete store where `certOne`'s hash is bound to enrollment
B and enrollment A authenticates with `certOne`. -/
theorem C1_witness :
    associateNewEnrollment ⟨false, false, false⟩ { assocs := [(enrollB, hashCert certOne)] }
        { certificate := some certOne, enrollID := some enrollA } =
      ⟨.error .noCertReuse, { assocs := [(enrollB, hashCert certOne)] },
        [.hasCertHash, .isCertHashAssociated]⟩ ∧
    associateNewEnrollment ⟨true, false, false⟩ { assocs := [(enrollB, hashCert certOne)] }
        { certificate := some certOne, enrollID := some enrollA } =
      ⟨.ok (), StoreModel.associateQ { assocs := [(enrollB, hashCert certOne)] } enrollA
          (hashCert certOne), [.hasCertHash, .associateCertHash]⟩ := by
  have h := C1_new_enrollment_duplicate_policy false false
    { assocs := [(enrollB, hashCert certOne)] }
    { certificate := some certOne, enrollID := some enrollA } certOne enrollA
    (by decide) (by decide) (by decide) (by decide) (by decide) (by decide) (by decide)
  exact ⟨h.1, h.2.1⟩

/-- C2 counterexample: enrollment A is bound to `certOne`'s hash and presents
`certTwo` on an existing-enrollment message with warn-only disabled,
retroactive binding disabled, duplicate-hashes disabled.  The code fails with
`ErrNoCertAssoc` (CertificateNotAssociated), not `ErrNoCertReuse`
(CertificateReuseDenied) as the claim states. -/
theorem C2_counterexample :
    (validateAssociateExistingEnrollment ⟨false, false, false⟩
        { assocs := [(enrollA, hashCert certOne)] }
        { certificate := some certTwo, enrollID := some enrollA }).result =
      .error .noCertAssoc ∧ Err.noCertAssoc ≠ Err.noCertReuse := by
  constructor
  · decide
  · decide

/-- C2 amended: for every enrollment already bound to some hash that presents
a different certificate hash on an existing-enrollment message, with warn-only
disabled, the call fails and performs no store mutation, regardless of the
duplicate-hash policy: with retroactive binding ENABLED it fails with
`ErrNoCertReuse` (CertificateReuseDenied); with retroactive binding DISABLED
it fails earlier, with `ErrNoCertAssoc` (CertificateNotAssociated). -/
theorem C2_amended_cert_swap
    (dup : Bool) (st : StoreModel) (r : Request) (cert : Certificate) (eid : EnrollID)
    (hcert : r.certificate = some cert)
    (hval : validateEnrollID r.enrollID = .ok eid)
    (hf2 : st.failIsAssoc = false) (hf3 : st.failEnrollmentHas = false)
    (hbound : st.enrollmentHasCertHashQ eid (hashCert cert) = true)
    (hother : st.isCertHashAssociatedQ eid (hashCert cert) = false) :
    validateAssociateExistingEnrollment ⟨dup, true, false⟩ st r =
      ⟨.error .noCertReuse, st, [.isCertHashAssociated, .enrollmentHasCertHash]⟩ ∧
    validateAssociateExistingEnrollment ⟨dup, false, false⟩ st r =
      ⟨.error .noCertAssoc, st, [.isCertHashAssociated]⟩ := by
  constructor
  · simp [validateAssociateExistingEnrollment, hcert, hval, hf2, hf3, hbound, hother]
  · simp [validateAssociateExistingEnrollment, hcert, hval, hf2, hf3, hbound, hother]

/-- C2 amended witness: the concrete swap scenario of the counterexample, in
both retroactive-binding configurations. -/
theorem C2_witness :
    validateAssociateExistingEnrollment ⟨false, true, false⟩
        { assocs := [(enrollA, hashCert certOne)] }
        { certificate := some certTwo, enrollID := some enrollA } =
      ⟨.error .noCertReuse, { assocs := [(enrollA, hashCert certOne)] },
        [.isCertHashAssociated, .enrollmentHasCertHash]⟩ ∧
    validateAssociateExistingEnrollment ⟨false, false, false⟩
        { assocs := [(enrollA, hashCert certOne)] }
        { certificate := some certTwo, enrollID := some enrollA } =
      ⟨.error .noCertAssoc, { assocs := [(enrollA, hashCert certOne)] },
        [.isCertHashAssociated]⟩ :=
  C2_amended_cert_swap false { assocs := [(enrollA, hashCert certOne)] }
    { certificate := some certTwo, enrollID := some enrollA } certTwo enrollA
    (by decide) (by decide) (by decide) (by decide) (by decide) (by decide)

/-- C6: a request with no attached certificate fails with `ErrMissingCert` on
both protocols, with no store operation at all (the ops trace is empty and the
store is unchanged), regardless of all policy flags including warn-only. -/
theorem C6_missing_certificate
    (s : CertAuth) (st : StoreModel) (r : Request) (h : r.certificate = none) :
    associateNewEnrollment s st r = ⟨.error .missingCert, st, []⟩ ∧
    validateAssociateExistingEnrollment s st r = ⟨.error .missingCert, st, []⟩ := by
  constructor
  · simp [associateNewEnrollment, h]
  · simp [validateAssociateExistingEnrollment, h]

/-- C6 witness: the certificate-less request under warn-only. -/
theorem C6_witness :
    associateNewEnrollment ⟨false, false, true⟩ { assocs := [] }
        { certificate := none, enrollID := some enrollA } =
      ⟨.error .missingCert, { assocs := [] }, []⟩ ∧
    validateAssociateExistingEnrollment ⟨false, false, true⟩ { assocs := [] }
        { certificate := none, enrollID := some enrollA } =
      ⟨.error .missingCert, { assocs := [] }, []⟩ :=
  C6_missing_certificate ⟨false, false, true⟩ { assocs := [] }
    { certificate := none, enrollID := some enrollA } (by decide)

/-- C7: normalization maps a device-channel enrollment and a subordinate
user-channel enrollment of the same physical device to the same canonical
device-level EnrollID, so association is tracked per physical device; an
unresolvable record normalizes to no identity; and two EnrollIDs are equal iff
both the identifier and the type field match. -/
theorem C7_normalization :
    (∀ d u, normalize (.deviceChannel d) = some ⟨d, .device⟩ ∧
            normalize (.userChannel d u) = some ⟨d, .device⟩ ∧
            normalize (.deviceChannel d) = normalize (.userChannel d u)) ∧
    normalize .unresolvable = none ∧
    ∀ a b : EnrollID, a = b ↔ a.id = b.id ∧ a.type = b.type := by
  refine ⟨fun d u => ⟨rfl, rfl, rfl⟩, rfl, fun a b => ?_⟩
  cases a
  cases b
  simp [EnrollID.mk.injEq]

end certauth

namespace certauth

/-- C3: with warn-only enabled, any call of either protocol whose certificate
is present, whose EnrollID validates and whose store operations do not error
returns success; on the new-enrollment path any non-idempotent case (hash not
already associated with this EnrollID, in particular a detected collision)
still calls `AssociateCertHash` and persists the association, while the
existing-enrollment path never calls `AssociateCertHash` and leaves the store
unchanged — asymmetrically by design. -/
theorem C3_warn_only_asymmetry
    (dup ar : Bool) (st : StoreModel) (r : Request) (cert : Certificate) (eid : EnrollID)
    (hcert : r.certificate = some cert)
    (hval : validateEnrollID r.enrollID = .ok eid)
    (hf1 : st.failHasCertHash = false) (hf2 : st.failIsAssoc = false)
    (hf3 : st.failEnrollmentHas = false) (hf4 : st.failAssociate = false) :
    (associateNewEnrollment ⟨dup, ar, true⟩ st r).result = .ok () ∧
    (st.isCertHashAssociatedQ eid (hashCert cert) = false →
      StoreOp.associateCertHash ∈ (associateNewEnrollment ⟨dup, ar, true⟩ st r).ops ∧
      (associateNewEnrollment ⟨dup, ar, true⟩ st r).store =
        st.associateQ eid (hashCert cert)) ∧
    (validateAssociateExistingEnrollment ⟨dup, ar, true⟩ st r).result = .ok () ∧
    StoreOp.associateCertHash ∉ (validateAssociateExistingEnrollment ⟨dup, ar, true⟩ st r).ops ∧
    (validateAssociateExistingEnrollment ⟨dup, ar, true⟩ st r).store = st := by
  cases hh : st.hasCertHashQ (hashCert cert) <;>
    cases hi : st.isCertHashAssociatedQ eid (hashCert cert) <;>
      cases dup <;>
        simp_all [associateNewEnrollment, validateAssociateExistingEnrollment, assocFinish,
          hcert, hval]

/-- C3 witness: warn-only with a collision (enrollment A presents the
certificate already bound to enrollment B): the new path succeeds and persists
the conflicting association, the existing path succeeds without mutation. -/
theorem C3_witness :
    (associateNewEnrollment ⟨false, false, true⟩ { assocs := [(enrollB, hashCert certOne)] }
        { certificate := some certOne, enrollID := some enrollA }).result = .ok () ∧
    (StoreOp.associateCertHash ∈
      (associateNewEnrollment ⟨false, false, true⟩ { assocs := [(enrollB, hashCert certOne)] }
        { certificate := some certOne, enrollID := some enrollA }).ops ∧
     (associateNewEnrollment ⟨false, false, true⟩ { assocs := [(enrollB, hashCert certOne)] }
        { certificate := some certOne, enrollID := some enrollA }).store =
       StoreModel.associateQ { assocs := [(enrollB, hashCert certOne)] } enrollA
         (hashCert certOne)) ∧
    (validateAssociateExistingEnrollment ⟨false, false, true⟩
        { assocs := [(enrollB, hashCert certOne)] }
        { certificate := some certOne, enrollID := some enrollA }).result = .ok () ∧
    StoreOp.associateCertHash ∉
      (validateAssociateExistingEnrollment ⟨false, false, true⟩
        { assocs := [(enrollB, hashCert certOne)] }
        { certificate := some certOne, enrollID := some enrollA }).ops ∧
    (validateAssociateExistingEnrollment ⟨false, false, true⟩
        { assocs := [(enrollB, hashCert certOne)] }
        { certificate := some certOne, enrollID := some enrollA }).store =
      { assocs := [(enrollB, hashCert certOne)] } := by
  have h := C3_warn_only_asymmetry false false { assocs := [(enrollB, hashCert certOne)] }
    { certificate := some certOne, enrollID := some enrollA } certOne enrollA
    (by decide) (by decide) (by decide) (by decide) (by decide) (by decide)
  exact ⟨h.1, h.2.1 (by decide), h.2.2⟩

/-- C4: with warn-only disabled, an existing-enrollment call by an enrollment
with no existing association whose certificate hash is unknown system-wide
fails with `ErrNoCertAssoc` (CertificateNotAssociated) and binds nothing when
retroactive binding is disabled, and succeeds binding the (EnrollID, hash)
pair when retroactive binding is enabled — in either case independently of the
duplicate-hash policy. -/
theorem C4_retroactive_binding
    (dup : Bool) (st : StoreModel) (r : Request) (cert : Certificate) (eid : EnrollID)
    (hcert : r.certificate = some cert)
    (hval : validateEnrollID r.enrollID = .ok eid)
    (hf1 : st.failHasCertHash = false) (hf2 : st.failIsAssoc = false)
    (hf3 : st.failEnrollmentHas = false) (hf4 : st.failAssociate = false)
    (hnoown : st.enrollmentHasCertHashQ eid (hashCert cert) = false)
    (hunknown : st.hasCertHashQ (hashCert cert) = false)
    (hnoassoc : st.isCertHashAssociatedQ eid (hashCert cert) = false) :
    validateAssociateExistingEnrollment ⟨dup, false, false⟩ st r =
      ⟨.error .noCertAssoc, st, [.isCertHashAssociated]⟩ ∧
    validateAssociateExistingEnrollment ⟨dup, true, false⟩ st r =
      ⟨.ok (), st.associateQ eid (hashCert cert),
        [.isCertHashAssociated, .enrollmentHasCertHash, .hasCertHash, .associateCertHash]⟩ := by
  constructor <;>
    simp [validateAssociateExistingEnrollment, hcert, hval, hf1, hf2, hf3, hf4,
      hnoown, hunknown, hnoassoc]

/-- C4 witness: a never-authenticated enrollment calling TokenUpdate against
an empty store, in both retroactive-binding configurations. -/
theorem C4_witness :
    validateAssociateExistingEnrollment ⟨false, false, false⟩ { assocs := [] }
        { certificate := some certOne, enrollID := some enrollA } =
      ⟨.error .noCertAssoc, { assocs := [] }, [.isCertHashAssociated]⟩ ∧
    validateAssociateExistingEnrollment ⟨false, true, false⟩ { assocs := [] }
        { certificate := some certOne, enrollID := some enrollA } =
      ⟨.ok (), StoreModel.associateQ { assocs := [] } enrollA (hashCert certOne),
        [.isCertHashAssociated, .enrollmentHasCertHash, .hasCertHash, .associateCertHash]⟩ :=
  C4_retroactive_binding false { assocs := [] }
    { certificate := some certOne, enrollID := some enrollA } certOne enrollA
    (by decide) (by decide) (by decide) (by decide) (by decide) (by decide)
    (by decide) (by decide) (by decide)

/-- A pair bound to this exact EnrollID is in particular known system-wide. -/
theorem StoreModel.hasCertHashQ_of_isAssoc (st : StoreModel) (eid : EnrollID) (h : String)
    (hm : st.isCertHashAssociatedQ eid h = true) : st.hasCertHashQ h = true := by
  simp only [StoreModel.isCertHashAssociatedQ, List.any_eq_true, decide_eq_true_eq] at hm
  obtain ⟨p, hp, _, hp2⟩ := hm
  simp only [StoreModel.hasCertHashQ, List.any_eq_true, decide_eq_true_eq]
  exact ⟨p, hp, hp2⟩

/-- C5: with the duplicate-hashes policy disabled, an Authenticate whose
certificate hash is already associated with the same normalized EnrollID
succeeds with no store mutation; and starting from a certificate never seen
before, the first Authenticate binds exactly that (EnrollID, hash) pair while
a second identical Authenticate succeeds without calling `AssociateCertHash`
and leaves the store exactly as after the first. -/
theorem C5_idempotent_reauthentication
    (ar w : Bool) (st : StoreModel) (r : Request) (cert : Certificate) (eid : EnrollID)
    (hcert : r.certificate = some cert)
    (hval : validateEnrollID r.enrollID = .ok eid)
    (hf1 : st.failHasCertHash = false) (hf2 : st.failIsAssoc = false)
    (hf4 : st.failAssociate = false) :
    (st.isCertHashAssociatedQ eid (hashCert cert) = true →
      associateNewEnrollment ⟨false, ar, w⟩ st r =
        ⟨.ok (), st, [.hasCertHash, .isCertHashAssociated]⟩) ∧
    (st.hasCertHashQ (hashCert cert) = false →
      associateNewEnrollment ⟨false, ar, w⟩ st r =
        ⟨.ok (), st.associateQ eid (hashCert cert), [.hasCertHash, .associateCertHash]⟩ ∧
      associateNewEnrollment ⟨false, ar, w⟩ (st.associateQ eid (hashCert cert)) r =
        ⟨.ok (), st.associateQ eid (hashCert cert), [.hasCertHash, .isCertHashAssociated]⟩) := by
  constructor
  · intro hm
    have hh := StoreModel.hasCertHashQ_of_isAssoc st eid (hashCert cert) hm
    simp [associateNewEnrollment, hcert, hval, hf1, hf2, hf4, hh, hm]
  · intro hfresh
    constructor
    · simp [associateNewEnrollment, hcert, hval, hf1, hf2, hf4, hfresh, assocFinish]
    · simp [associateNewEnrollment, hcert, hval, StoreModel.associateQ,
        StoreModel.hasCertHashQ, StoreModel.isCertHashAssociatedQ, hf1, hf2, hf4]

end certauth

namespace certauth

/-- C5 witness: the first Authenticate of `certOne` for enrollment A on an
empty store binds exactly one association, the identical second Authenticate
is idempotent, and an Authenticate against a store already holding the pair
mutates nothing. -/
theorem C5_witness :
    associateNewEnrollment ⟨false, false, false⟩ { assocs := [] }
        { certificate := some certOne, enrollID := some enrollA } =
      ⟨.ok (), StoreModel.associateQ { assocs := [] } enrollA (hashCert certOne),
        [.hasCertHash, .associateCertHash]⟩ ∧
    associateNewEnrollment ⟨false, false, false⟩
        (StoreModel.associateQ { assocs := [] } enrollA (hashCert certOne))
        { certificate := some certOne, enrollID := some enrollA } =
      ⟨.ok (), StoreModel.associateQ { assocs := [] } enrollA (hashCert certOne),
        [.hasCertHash, .isCertHashAssociated]⟩ ∧
    associateNewEnrollment ⟨false, false, false⟩ { assocs := [(enrollA, hashCert certOne)] }
        { certificate := some certOne, enrollID := some enrollA } =
      ⟨.ok (), { assocs := [(enrollA, hashCert certOne)] },
        [.hasCertHash, .isCertHashAssociated]⟩ := by
  have h := C5_idempotent_reauthentication false false { assocs := [] }
    { certificate := some certOne, enrollID := some enrollA } certOne enrollA
    (by decide) (by decide) (by decide) (by decide) (by decide)
  have h2 := C5_idempotent_reauthentication false false
    { assocs := [(enrollA, hashCert certOne)] }
    { certificate := some certOne, enrollID := some enrollA } certOne enrollA
    (by decide) (by decide) (by decide) (by decide) (by decide)
  exact ⟨(h.2 (by decide)).1, (h.2 (by decide)).2, h2.1 (by decide)⟩

/-- C8: for each of the four intercepted operations, when the protocol
function applied to the normalized clone succeeds the middleware invokes the
next service with the original, unmodified request and message, and when it
fails the next service is not invoked and the returned error wraps the
underlying error with the context naming the lifecycle stage ("cert auth: new
enrollment" for Authenticate, "cert auth: existing enrollment" for the other
three). -/
theorem C8_dispatch_frame
    (s : CertAuth) (st : StoreModel) (r : Request)
    (ma : AuthenticateMsg) (mt : TokenUpdateMsg) (mc : CheckOutMsg) (mr : CommandResultsMsg) :
    ((associateNewEnrollment s st
        { r.clone with enrollID := normalize ma.enrollment }).result = .ok () →
      s.Authenticate st r ma = .next r ma
        (associateNewEnrollment s st
          { r.clone with enrollID := normalize ma.enrollment }).store) ∧
    (∀ e, (associateNewEnrollment s st
        { r.clone with enrollID := normalize ma.enrollment }).result = .error e →
      s.Authenticate st r ma = .fail ⟨"cert auth: new enrollment", e⟩
        (associateNewEnrollment s st
          { r.clone with enrollID := normalize ma.enrollment }).store) ∧
    ((validateAssociateExistingEnrollment s st
        { r.clone with enrollID := normalize mt.enrollment }).result = .ok () →
      s.TokenUpdate st r mt = .next r mt
        (validateAssociateExistingEnrollment s st
          { r.clone with enrollID := normalize mt.enrollment }).store) ∧
    (∀ e, (validateAssociateExistingEnrollment s st
        { r.clone with enrollID := normalize mt.enrollment }).result = .error e →
      s.TokenUpdate st r mt = .fail ⟨"cert auth: existing enrollment", e⟩
        (validateAssociateExistingEnrollment s st
          { r.clone with enrollID := normalize mt.enrollment }).store) ∧
    ((validateAssociateExistingEnrollment s st
        { r.clone with enrollID := normalize mc.enrollment }).result = .ok () →
      s.CheckOut st r mc = .next r mc
        (validateAssociateExistingEnrollment s st
          { r.clone with enrollID := normalize mc.enrollment }).store) ∧
    (∀ e, (validateAssociateExistingEnrollment s st
        { r.clone with enrollID := normalize mc.enrollment }).result = .error e →
      s.CheckOut st r mc = .fail ⟨"cert auth: existing enrollment", e⟩
        (validateAssociateExistingEnrollment s st
          { r.clone with enrollID := normalize mc.enrollment }).store) ∧
    ((validateAssociateExistingEnrollment s st
        { r.clone with enrollID := normalize mr.enrollment }).result = .ok () →
      s.CommandAndReportResults st r mr = .next r mr
        (validateAssociateExistingEnrollment s st
          { r.clone with enrollID := normalize mr.enrollment }).store) ∧
    (∀ e, (validateAssociateExistingEnrollment s st
        { r.clone with enrollID := normalize mr.enrollment }).result = .error e →
      s.CommandAndReportResults st r mr = .fail ⟨"cert auth: existing enrollment", e⟩
        (validateAssociateExistingEnrollment s st
          { r.clone with enrollID := normalize mr.enrollment }).store) := by
  refine ⟨fun h => ?_, fun e h => ?_, fun h => ?_, fun e h => ?_, fun h => ?_, fun e h => ?_,
    fun h => ?_, fun e h => ?_⟩ <;>
    simp [CertAuth.Authenticate, CertAuth.TokenUpdate, CertAuth.CheckOut,
      CertAuth.CommandAndReportResults, h]

end certauth

namespace microwebhook

/-- C10: `postWebhookEvent` returns `nil` iff JSON serialization, HTTP request
construction and the HTTP round trip all succeed and the response status code
is exactly 200; any received response with any other status code — including
other 2xx codes — yields a non-nil error. -/
theorem C10_post_webhook_status (env : WebhookEnv) :
    postWebhookEvent env = none ↔
      env.marshalOk = true ∧ env.newRequestOk = true ∧
      ∃ resp, env.doResult = some resp ∧ resp.statusCode = 200 := by
  unfold postWebhookEvent
  cases hm : env.marshalOk <;> cases hn : env.newRequestOk <;> cases hd : env.doResult <;>
    simp_all

end microwebhook

namespace certauth

/-- C8 witness: concrete success and failure runs of all four dispatch
methods.  Enrollment A authenticating with `certOne` against an empty store
forwards the original request and message; the three existing-enrollment
operations succeed against a store already binding (A, hash certOne) and fail
against the empty store; a certificate-less Authenticate fails with the
new-enrollment context. -/
theorem C8_witness :
    CertAuth.Authenticate ⟨false, false, false⟩ { assocs := [] }
        { certificate := some certOne, enrollID := none } ⟨.deviceChannel "A"⟩ =
      .next { certificate := some certOne, enrollID := none } ⟨.deviceChannel "A"⟩
        { assocs := [(enrollA, hashCert certOne)] } ∧
    CertAuth.Authenticate ⟨false, false, false⟩ { assocs := [] }
        { certificate := none, enrollID := none } ⟨.deviceChannel "A"⟩ =
      .fail ⟨"cert auth: new enrollment", .missingCert⟩ { assocs := [] } ∧
    CertAuth.TokenUpdate ⟨false, false, false⟩ { assocs := [(enrollA, hashCert certOne)] }
        { certificate := some certOne, enrollID := none } ⟨.deviceChannel "A"⟩ =
      .next { certificate := some certOne, enrollID := none } ⟨.deviceChannel "A"⟩
        { assocs := [(enrollA, hashCert certOne)] } ∧
    CertAuth.TokenUpdate ⟨false, false, false⟩ { assocs := [] }
        { certificate := some certOne, enrollID := none } ⟨.deviceChannel "A"⟩ =
      .fail ⟨"cert auth: existing enrollment", .noCertAssoc⟩ { assocs := [] } ∧
    CertAuth.CheckOut ⟨false, false, false⟩ { assocs := [(enrollA, hashCert certOne)] }
        { certificate := some certOne, enrollID := none } ⟨.deviceChannel "A"⟩ =
      .next { certificate := some certOne, enrollID := none } ⟨.deviceChannel "A"⟩
        { assocs := [(enrollA, hashCert certOne)] } ∧
    CertAuth.CheckOut ⟨false, false, false⟩ { assocs := [] }
        { certificate := some certOne, enrollID := none } ⟨.deviceChannel "A"⟩ =
      .fail ⟨"cert auth: existing enrollment", .noCertAssoc⟩ { assocs := [] } ∧
    CertAuth.CommandAndReportResults ⟨false, false, false⟩
        { assocs := [(enrollA, hashCert certOne)] }
        { certificate := some certOne, enrollID := none } ⟨.deviceChannel "A"⟩ =
      .next { certificate := some certOne, enrollID := none } ⟨.deviceChannel "A"⟩
        { assocs := [(enrollA, hashCert certOne)] } ∧
    CertAuth.CommandAndReportResults ⟨false, false, false⟩ { assocs := [] }
        { certificate := some certOne, enrollID := none } ⟨.deviceChannel "A"⟩ =
      .fail ⟨"cert auth: existing enrollment", .noCertAssoc⟩ { assocs := [] } := by
  have h1 := C8_dispatch_frame ⟨false, false, false⟩ { assocs := [] }
    { certificate := some certOne, enrollID := none } ⟨.deviceChannel "A"⟩
    ⟨.deviceChannel "A"⟩ ⟨.deviceChannel "A"⟩ ⟨.deviceChannel "A"⟩
  have h2 := C8_dispatch_frame ⟨false, false, false⟩ { assocs := [(enrollA, hashCert certOne)] }
    { certificate := some certOne, enrollID := none } ⟨.deviceChannel "A"⟩
    ⟨.deviceChannel "A"⟩ ⟨.deviceChannel "A"⟩ ⟨.deviceChannel "A"⟩
  have h3 := C8_dispatch_frame ⟨false, false, false⟩ { assocs := [] }
    { certificate := none, enrollID := none } ⟨.deviceChannel "A"⟩
    ⟨.deviceChannel "A"⟩ ⟨.deviceChannel "A"⟩ ⟨.deviceChannel "A"⟩
  refine ⟨(h1.1 (by decide)).trans (by decide),
    (h3.2.1 .missingCert (by decide)).trans (by decide),
    (h2.2.2.1 (by decide)).trans (by decide),
    (h1.2.2.2.1 .noCertAssoc (by decide)).trans (by decide),
    (h2.2.2.2.2.1 (by decide)).trans (by decide),
    (h1.2.2.2.2.2.1 .noCertAssoc (by decide)).trans (by decide),
    (h2.2.2.2.2.2.2.1 (by decide)).trans (by decide),
    (h1.2.2.2.2.2.2.2 .noCertAssoc (by decide)).trans (by decide)⟩

/-- Every run of the new-enrollment protocol either succeeds, or fails in the
bind operation itself, or touches nothing: no `AssociateCertHash` call and an
unchanged store. -/
theorem newEnrollment_cases (s : CertAuth) (st : StoreModel) (r : Request) :
    (associateNewEnrollment s st r).result = .ok () ∨
    (associateNewEnrollment s st r).result = .error (.store .associateCertHash) ∨
    (StoreOp.associateCertHash ∉ (associateNewEnrollment s st r).ops ∧
      (associateNewEnrollment s st r).store = st) := by
  cases hc : r.certificate with
  | none => simp [associateNewEnrollment, hc]
  | some cert =>
    cases hv : validateEnrollID r.enrollID with
    | error e => simp [associateNewEnrollment, hc, hv]
    | ok eid =>
      simp only [associateNewEnrollment, hc, hv, assocFinish]
      split_ifs <;> simp

/-- Every run of the existing-enrollment protocol either succeeds, or fails in
the bind operation itself, or touches nothing. -/
theorem existing_cases (s : CertAuth) (st : StoreModel) (r : Request) :
    (validateAssociateExistingEnrollment s st r).result = .ok () ∨
    (validateAssociateExistingEnrollment s st r).result = .error (.store .associateCertHash) ∨
    (StoreOp.associateCertHash ∉ (validateAssociateExistingEnrollment s st r).ops ∧
      (validateAssociateExistingEnrollment s st r).store = st) := by
  cases hc : r.certificate with
  | none => simp [validateAssociateExistingEnrollment, hc]
  | some cert =>
    cases hv : validateEnrollID r.enrollID with
    | error e => simp [validateAssociateExistingEnrollment, hc, hv]
    | ok eid =>
      simp only [validateAssociateExistingEnrollment, hc, hv]
      split_ifs <;> simp

/-- C9: whenever either protocol returns an error other than a failure of the
bind operation itself (missing certificate, EnrollID validation error,
`ErrNoCertReuse`, `ErrNoCertAssoc`, or a propagated store read-query error),
`AssociateCertHash` was not invoked during that call and the association store
is unchanged. -/
theorem C9_no_mutation_on_error
    (s : CertAuth) (st : StoreModel) (r : Request) (e : Err)
    (hne : e ≠ .store .associateCertHash) :
    ((associateNewEnrollment s st r).result = .error e →
      StoreOp.associateCertHash ∉ (associateNewEnrollment s st r).ops ∧
      (associateNewEnrollment s st r).store = st) ∧
    ((validateAssociateExistingEnrollment s st r).result = .error e →
      StoreOp.associateCertHash ∉ (validateAssociateExistingEnrollment s st r).ops ∧
      (validateAssociateExistingEnrollment s st r).store = st) := by
  constructor
  · intro hres
    rcases newEnrollment_cases s st r with h | h | h
    · simp [hres] at h
    · simp only [hres, Except.error.injEq] at h
      exact absurd h hne
    · exact h
  · intro hres
    rcases existing_cases s st r with h | h | h
    · simp [hres] at h
    · simp only [hres, Except.error.injEq] at h
      exact absurd h hne
    · exact h

/-- C9 witness: the denied-reuse Authenticate of enrollment A against a store
binding `certOne`'s hash to enrollment B leaves the store untouched. -/
theorem C9_witness :
    (associateNewEnrollment ⟨false, false, false⟩ { assocs := [(enrollB, hashCert certOne)] }
        { certificate := some certOne, enrollID := some enrollA }).result =
      .error .noCertReuse ∧
    StoreOp.associateCertHash ∉
      (associateNewEnrollment ⟨false, false, false⟩ { assocs := [(enrollB, hashCert certOne)] }
        { certificate := some certOne, enrollID := some enrollA }).ops ∧
    (associateNewEnrollment ⟨false, false, false⟩ { assocs := [(enrollB, hashCert certOne)] }
        { certificate := some certOne, enrollID := some enrollA }).store =
      { assocs := [(enrollB, hashCert certOne)] } := by
  have h := C9_no_mutation_on_error ⟨false, false, false⟩
    { assocs := [(enrollB, hashCert certOne)] }
    { certificate := some certOne, enrollID := some enrollA } .noCertReuse (by decide)
  exact ⟨by decide, h.1 (by decide)⟩

end certauth
